import Mathlib

/-!
# SAML SP authentication flow: embedding and verification

Shallow embedding of the repository's three source files
(`app.py`, `saml_auth_service.py`, `test_service.py`) together with a
spec-modelled Assertion Validator and Replay Cache (the validation core is
delegated to an external SAML toolkit and is absent from the source; it is
modelled here from the specification's §4.3 and §4.5 contracts).

Conventions of the embedding:
* Python strings are Lean `String`s; the bytes of a string (as produced by
  Python's `str.encode()`) are modelled as `List Nat` via `Char.toNat`,
  exact for code points below 256 (all inputs of interest are ASCII).
* `base64.b64encode`/`b64decode` are modelled by `b64encode`/`b64decode`
  over byte lists, standard RFC 4648 alphabet with `=` padding.
* A raised `HTTPException(status_code, detail)` is an `Except .error`
  carrying status and detail; returning normally is `Except.ok`.
* The outcome of the external `OneLogin_Saml2_Auth` object after
  `process_response()` is abstracted as an `AuthResult` record of its three
  observations used by the handlers: `get_errors()`, `is_authenticated()`,
  `get_nameid()`.
-/

/-! ## Base64 (model of Python `base64.b64encode` / `b64decode`) -/

/-- The RFC 4648 base64 alphabet (`A`–`Z`, `a`–`z`, `0`–`9`, `+`, `/`), as
used by Python's `base64` module. -/
def b64Alphabet : List Char :=
  (List.range 26).map (fun i => Char.ofNat (65 + i)) ++
  (List.range 26).map (fun i => Char.ofNat (97 + i)) ++
  (List.range 10).map (fun i => Char.ofNat (48 + i)) ++ ['+', '/']

/-- Character for a six-bit group. -/
def sextet (n : Nat) : Char := b64Alphabet.getD n '?'

/-- Index of a character in the base64 alphabet (`none` for `=` and others). -/
def b64Index (c : Char) : Option Nat := b64Alphabet.indexOf? c

/-- Base64-encode a byte list (groups of 3 bytes to 4 characters, `=` padding). -/
def b64encode : List Nat → List Char
  | [] => []
  | [a] => [sextet (a / 4), sextet (a % 4 * 16), '=', '=']
  | [a, b] => [sextet (a / 4), sextet (a % 4 * 16 + b / 16), sextet (b % 16 * 4), '=']
  | a :: b :: c :: rest =>
      sextet (a / 4) :: sextet (a % 4 * 16 + b / 16) ::
      sextet (b % 16 * 4 + c / 64) :: sextet (c % 64) :: b64encode rest

/-- Base64-decode a character list (groups of 4 characters; `=` padding only
in the final group, as Python's `base64.b64decode` requires). -/
def b64decode : List Char → Option (List Nat)
  | [] => some []
  | c1 :: c2 :: c3 :: c4 :: rest =>
      match b64Index c1, b64Index c2 with
      | some s1, some s2 =>
          if c3 = '=' then
            if c4 = '=' ∧ rest = [] then some [s1 * 4 + s2 / 16] else none
          else
            match b64Index c3 with
            | some s3 =>
                if c4 = '=' then
                  if rest = [] then some [s1 * 4 + s2 / 16, s2 % 16 * 16 + s3 / 4]
                  else none
                else
                  match b64Index c4 with
                  | some s4 =>
                      (b64decode rest).map
                        (fun bs => (s1 * 4 + s2 / 16) :: (s2 % 16 * 16 + s3 / 4) ::
                                   (s3 % 4 * 64 + s4) :: bs)
                  | none => none
            | none => none
      | _, _ => none
  | _ => none

/-- Bytes of a Python string (`str.encode()`), exact for code points < 256. -/
def strBytes (s : String) : List Nat := s.data.map Char.toNat

/-- All code points of a string fit in one byte. -/
def latin1 (s : String) : Prop := ∀ c ∈ s.data, c.toNat < 256

instance (s : String) : Decidable (latin1 s) := by
  unfold latin1; infer_instance

/-- `base64.b64encode(...).decode()`: encoded bytes as a Lean string. -/
def b64encodeStr (bs : List Nat) : String := String.mk (b64encode bs)

/-- `base64.b64decode` applied to a Lean string. -/
def b64decodeStr (s : String) : Option (List Nat) := b64decode s.data

/-! ## `test_service.py` -/

/-- Result of `TestService.create_tokens`. -/
structure TokenPair where
  access_token : String
  refresh_token : String
deriving DecidableEq

/-- `TestService.create_tokens(user_id, email, auth_type)`: base64 of the
colon-joined fields (note the trailing colon on the access token). -/
def create_tokens (user_id email auth_type : String) : TokenPair :=
  { access_token :=
      b64encodeStr (strBytes (user_id ++ ":" ++ email ++ ":" ++ auth_type ++ ":access:")),
    refresh_token :=
      b64encodeStr (strBytes (user_id ++ ":" ++ email ++ ":" ++ auth_type ++ ":refresh")) }

/-- Record returned by `TestService.get_auth_user` on a hit. -/
structure AuthUser where
  email : String
  id : String
deriving DecidableEq

/-- The fixed UUID in `test_service.py`. -/
def testUserId : String := "3f9c60a5-353e-49bf-83b5-85f2a6073a0d"

/-- `TestService.get_auth_user(email)`: equality check against the configured
`TEST_USER_EMAIL` (an `Option`, since `os.getenv` may yield `None`; in Python
`str == None` is `False`). -/
def get_auth_user (test_user_email : Option String) (email : String) : Option AuthUser :=
  if some email = test_user_email then some ⟨email, testUserId⟩ else none

/-! ## The abstracted SAML library outcome -/

/-- Observations of the `OneLogin_Saml2_Auth` object after
`process_response()`, as read by both handlers: `get_errors()`,
`is_authenticated()`, `get_nameid()` (`none` models Python `None`). -/
structure AuthResult where
  errors : List String
  authenticated : Bool
  nameid : Option String
deriving DecidableEq

/-! ## `saml_auth_service.py`: `SamlAuthService.process_assertion` -/

/-- The `detail` dict passed to `HTTPException` in `process_assertion`. -/
structure ErrDetail where
  error : String
  message : Option String
  details : Option (List String)
deriving DecidableEq

/-- A raised `HTTPException` (structured detail, service variant). -/
structure HttpError where
  status : Nat
  detail : ErrDetail
deriving DecidableEq

/-- Successful JSON body of `process_assertion`. -/
structure TokenResponse where
  access_token : String
  refresh_token : String
  token_type : String
deriving DecidableEq

/-- `SamlAuthService.process_assertion`: the ACS pipeline of
`saml_auth_service.py` lines 65–136, with the library outcome abstracted as
`a : AuthResult` and the form check as `samlResponsePresent`. -/
def process_assertion (test_user_email : Option String)
    (samlResponsePresent : Bool) (a : AuthResult) :
    Except HttpError TokenResponse :=
  if samlResponsePresent = false then
    .error ⟨400, ⟨"Missing SAML response",
                  some "SAML response not found in form data.", none⟩⟩
  else if a.errors ≠ [] then
    .error ⟨400, ⟨"SAML processing failed", none, some a.errors⟩⟩
  else if a.authenticated = false then
    .error ⟨401, ⟨"SAML authentication failed",
                  some "User could not be authenticated through the SAML response.", none⟩⟩
  else
    match a.nameid with
    | none =>
        .error ⟨400, ⟨"Invalid SAML response",
                      some "NameID (email) not found in the SAML assertion.", none⟩⟩
    | some email =>
        if email = "" then
          .error ⟨400, ⟨"Invalid SAML response",
                        some "NameID (email) not found in the SAML assertion.", none⟩⟩
        else
          match get_auth_user test_user_email email with
          | none =>
              .error ⟨401, ⟨"Unauthorized user",
                            some "User account not found in the application.", none⟩⟩
          | some user =>
              let tokens := create_tokens user.id user.email "saml"
              .ok ⟨tokens.access_token, tokens.refresh_token, "bearer"⟩

/-! ## `app.py`: the `/acs` route handler `saml_acs` -/

/-- A raised `HTTPException` whose `detail` is a plain string (`app.py`). -/
structure HttpErrorS where
  status : Nat
  detail : String
deriving DecidableEq

/-- Successful JSON body of `app.py`'s `saml_acs`. -/
structure AcsResponse where
  message : String
  email : String
  access_token : String
  refresh_token : String
  token_type : String
deriving DecidableEq

/-- Python `str(list_of_str)` as interpolated by the f-string in `app.py`. -/
def pyStrListRepr (l : List String) : String :=
  "[" ++ String.intercalate ", " (l.map (fun s => "'" ++ s ++ "'")) ++ "]"

/-- `app.py` line 117: `base64.b64encode(f"{email}:access".encode()).decode()`. -/
def fakeAccessToken (email : String) : String :=
  b64encodeStr (strBytes (email ++ ":access"))

/-- `app.py` line 118: `base64.b64encode(f"{email}:refresh".encode()).decode()`. -/
def fakeRefreshToken (email : String) : String :=
  b64encodeStr (strBytes (email ++ ":refresh"))

/-- `app.py` line 113: `email = auth.get_nameid() or "unknown"` — Python's
`or` substitutes `"unknown"` for a missing (`None`) or empty (falsy) NameID. -/
def acsEmail : Option String → String
  | some e => if e = "" then "unknown" else e
  | none => "unknown"

/-- `app.py`'s `saml_acs` (lines 96–126). -/
def saml_acs (samlResponsePresent : Bool) (a : AuthResult) :
    Except HttpErrorS AcsResponse :=
  if samlResponsePresent = false then
    .error ⟨400, "Missing SAMLResponse in form data"⟩
  else if a.errors ≠ [] then
    .error ⟨400, "SAML processing failed: " ++ pyStrListRepr a.errors⟩
  else if a.authenticated = false then
    .error ⟨401, "SAML authentication failed"⟩
  else
    let email := acsEmail a.nameid
    .ok ⟨"SAML authentication successful", email,
         fakeAccessToken email, fakeRefreshToken email, "bearer"⟩

/-! ## Spec-modelled core: Replay Cache (§4.5) and Assertion Validator (§4.3)

The repository delegates assertion validation and replay protection to the
external SAML toolkit; no implementation exists under the source tree. The
following definitions are modelled from the specification's contracts. -/

/-- Modelled from the spec: the Replay Cache's table of `(ID, expiry)`
`ReplayRecord` entries (§4.5, §3); absent from the source, which delegates
replay protection to the external SAML toolkit. -/
abbrev ReplayCache := List (String × Int)

/-- Expiry recorded for an ID in the cache (first matching entry). -/
def lookupId (id : String) : ReplayCache → Option Int
  | [] => none
  | (i, e) :: rest => if i = id then some e else lookupId id rest

/-- Modelled from the spec: `put(id, expiry)` (§4.5). -/
def put (id : String) (expiry : Int) (c : ReplayCache) : ReplayCache :=
  (id, expiry) :: c

/-- Modelled from the spec: `consume(id, now) -> bool`, "true = found &
unexpired & now removed" (§4.5); returns the updated cache alongside. -/
def consume (id : String) (now : Int) (c : ReplayCache) : Bool × ReplayCache :=
  match lookupId id c with
  | some exp => if now ≤ exp then (true, c.filter (fun e => e.1 ≠ id)) else (false, c)
  | none => (false, c)

/-- Modelled from the spec: `sweep(now)` drops expired entries (§4.5). -/
def sweep (now : Int) (c : ReplayCache) : ReplayCache :=
  c.filter (fun e => now ≤ e.2)

/-- Modelled from the spec: an Assertion's fields used by validation (§3);
`signatureValid` abstracts the §4.2 signature-verification outcome. -/
structure Assertion where
  nameID : String
  issuer : String
  notBefore : Int
  notOnOrAfter : Int
  audiences : List String
  authnInstant : Int
  attributes : List (String × List String)
  signatureValid : Bool
  inResponseTo : Option String
deriving DecidableEq

/-- Modelled from the spec: a parsed SAML Response envelope (§3). -/
structure SamlResponseEnvelope where
  issuer : String
  statusSuccess : Bool
  assertion : Assertion
deriving DecidableEq

/-- Modelled from the spec: the identity produced only after all validation
checks pass (§3). -/
structure VerifiedIdentity where
  nameID : String
  attributes : List (String × List String)
  issuer : String
  authnInstant : Int
deriving DecidableEq

/-- Modelled from the spec: the validation error taxonomy (§7) restricted to
the §4.3 pipeline's failure modes. -/
inductive ValidationError where
  | idpReportedFailure
  | issuerMismatch
  | unsignedAssertion
  | assertionNotYetValid
  | assertionExpired
  | audienceMismatch
  | replayDetected
  | missingSubjectIdentifier
deriving DecidableEq

/-- Clock-skew allowance of §4.3 step 4 (±60 s). -/
def clockSkew : Int := 60

/-- Modelled from the spec: the §4.3 `validate` pipeline, absent from the
source (delegated to the external SAML toolkit). A strict ordered pipeline:
status, issuer, signature, validity window (±`clockSkew`), audience, replay
(one-time consumption of the `InResponseTo` pending-request ID), NameID.
Returns the `VerifiedIdentity` and the updated pending-request cache. -/
def validate (env : SamlResponseEnvelope) (idpEntityId spEntityId : String)
    (pending : ReplayCache) (now : Int) :
    Except ValidationError (VerifiedIdentity × ReplayCache) :=
  if env.statusSuccess = false then .error .idpReportedFailure
  else if env.issuer ≠ idpEntityId then .error .issuerMismatch
  else if env.assertion.signatureValid = false then .error .unsignedAssertion
  else if now + clockSkew < env.assertion.notBefore then .error .assertionNotYetValid
  else if env.assertion.notOnOrAfter < now - clockSkew then .error .assertionExpired
  else if spEntityId ∉ env.assertion.audiences then .error .audienceMismatch
  else
    match env.assertion.inResponseTo with
    | some rid =>
        match consume rid now pending with
        | (true, p) =>
            if env.assertion.nameID = "" then .error .missingSubjectIdentifier
            else .ok (⟨env.assertion.nameID, env.assertion.attributes,
                       env.assertion.issuer, env.assertion.authnInstant⟩, p)
        | (false, _) => .error .replayDetected
    | none =>
        if env.assertion.nameID = "" then .error .missingSubjectIdentifier
        else .ok (⟨env.assertion.nameID, env.assertion.attributes,
                   env.assertion.issuer, env.assertion.authnInstant⟩, pending)

/-! ## Concrete sample data used to instantiate the theorems -/

/-- A signed sample assertion within its validity window (spec §8 scenario). -/
def sampleAssertion : Assertion :=
  { nameID := "alice@example.com"
    issuer := "https://idp.example.com"
    notBefore := 940
    notOnOrAfter := 1240
    audiences := ["https://sp.example.com"]
    authnInstant := 950
    attributes := []
    signatureValid := true
    inResponseTo := some "req-1" }

/-- A successful sample response envelope around `sampleAssertion`. -/
def sampleEnvelope : SamlResponseEnvelope :=
  { issuer := "https://idp.example.com"
    statusSuccess := true
    assertion := sampleAssertion }

/-- The identity `validate` produces for `sampleEnvelope`. -/
def sampleIdentity : VerifiedIdentity :=
  { nameID := "alice@example.com"
    attributes := []
    issuer := "https://idp.example.com"
    authnInstant := 950 }

/-! ## Base64 correctness -/

/-- Decoding a base64 character produced by `sextet` recovers the six bits. -/
theorem b64Index_sextet : ∀ n < 64, b64Index (sextet n) = some n := by decide

/-- `sextet` never produces the padding character. -/
theorem sextet_ne_pad : ∀ n < 64, sextet n ≠ '=' := by decide

/-- Round trip: decoding a base64 encoding of a byte list recovers it. -/
theorem b64decode_b64encode (bs : List Nat) (h : ∀ b ∈ bs, b < 256) :
    b64decode (b64encode bs) = some bs := by
  induction bs using b64encode.induct with
  | case1 => rfl
  | case2 a =>
      have ha : a < 256 := h a (by simp)
      have e1 := b64Index_sextet (a / 4) (by omega)
      have e2 := b64Index_sextet (a % 4 * 16) (by omega)
      simp only [b64encode, b64decode, e1, e2, if_pos rfl]
      simp only [and_self, if_true, Option.some.injEq, List.cons.injEq, and_true]
      omega
  | case3 a b =>
      have ha : a < 256 := h a (by simp)
      have hb : b < 256 := h b (by simp)
      have e1 := b64Index_sextet (a / 4) (by omega)
      have e2 := b64Index_sextet (a % 4 * 16 + b / 16) (by omega)
      have e3 := b64Index_sextet (b % 16 * 4) (by omega)
      have n3 := sextet_ne_pad (b % 16 * 4) (by omega)
      simp only [b64encode, b64decode, e1, e2, e3, if_neg n3, if_pos rfl]
      simp only [if_true, Option.some.injEq, List.cons.injEq, and_true]
      constructor <;> omega
  | case4 a b c rest ih =>
      have ha : a < 256 := h a (by simp)
      have hb : b < 256 := h b (by simp)
      have hc : c < 256 := h c (by simp)
      have hr : ∀ x ∈ rest, x < 256 := fun x hx => h x (by simp [hx])
      have e1 := b64Index_sextet (a / 4) (by omega)
      have e2 := b64Index_sextet (a % 4 * 16 + b / 16) (by omega)
      have e3 := b64Index_sextet (b % 16 * 4 + c / 64) (by omega)
      have e4 := b64Index_sextet (c % 64) (by omega)
      have n3 := sextet_ne_pad (b % 16 * 4 + c / 64) (by omega)
      have n4 := sextet_ne_pad (c % 64) (by omega)
      simp only [b64encode, b64decode, e1, e2, e3, e4, if_neg n3, if_neg n4, ih hr,
                 Option.map_some']
      simp only [Option.some.injEq, List.cons.injEq, and_true]
      omega

/-- The characters of a concatenation are the two characters lists appended. -/
theorem string_data_append (s t : String) : (s ++ t).data = s.data ++ t.data := by
  cases s; cases t; rfl

/-- `strBytes` distributes over concatenation. -/
theorem strBytes_append (s t : String) :
    strBytes (s ++ t) = strBytes s ++ strBytes t := by
  simp [strBytes, string_data_append]

/-- `latin1` is preserved by concatenation. -/
theorem latin1_append {s t : String} (hs : latin1 s) (ht : latin1 t) :
    latin1 (s ++ t) := by
  intro c hc
  rw [string_data_append] at hc
  rcases List.mem_append.mp hc with h | h
  exacts [hs c h, ht c h]

/-- The bytes of a `latin1` string all fit in one byte. -/
theorem strBytes_lt {s : String} (hs : latin1 s) : ∀ b ∈ strBytes s, b < 256 := by
  intro b hb
  simp only [strBytes, List.mem_map] at hb
  obtain ⟨c, hc, rfl⟩ := hb
  exact hs c hc

/-- String-level round trip for the byte-exact (`latin1`) fragment. -/
theorem b64decodeStr_b64encodeStr (bs : List Nat) (h : ∀ b ∈ bs, b < 256) :
    b64decodeStr (b64encodeStr bs) = some bs :=
  b64decode_b64encode bs h

theorem processAssertion_eq_ok_iff (cfg : Option String) (present : Bool)
    (a : AuthResult) (r : TokenResponse) :
    process_assertion cfg present a = .ok r ↔
      present = true ∧ a.errors = [] ∧ a.authenticated = true ∧
      ∃ e u, a.nameid = some e ∧ e ≠ "" ∧ get_auth_user cfg e = some u ∧
        r = ⟨(create_tokens u.id u.email "saml").access_token,
             (create_tokens u.id u.email "saml").refresh_token, "bearer"⟩ := by
  rcases a with ⟨errors, auth, nameid⟩
  cases present with
  | false => simp [process_assertion]
  | true =>
    cases errors with
    | cons x xs => simp [process_assertion]
    | nil =>
      cases auth with
      | false => simp [process_assertion]
      | true =>
        cases nameid with
        | none => simp [process_assertion]
        | some e =>
          by_cases he : e = ""
          · simp [process_assertion, he]
          · cases hg : get_auth_user cfg e with
            | none => simp [process_assertion, he, hg]
            | some u => simp [process_assertion, he, hg, eq_comm]

theorem samlAcs_eq_ok_iff (present : Bool) (a : AuthResult) (r : AcsResponse) :
    saml_acs present a = .ok r ↔
      present = true ∧ a.errors = [] ∧ a.authenticated = true ∧
      r = ⟨"SAML authentication successful", acsEmail a.nameid,
           fakeAccessToken (acsEmail a.nameid), fakeRefreshToken (acsEmail a.nameid),
           "bearer"⟩ := by
  rcases a with ⟨errors, auth, nameid⟩
  cases present with
  | false => simp [saml_acs]
  | true =>
    cases errors with
    | cons x xs => simp [saml_acs]
    | nil =>
      cases auth with
      | false => simp [saml_acs]
      | true => simp [saml_acs, eq_comm]

theorem processAssertion_error_status (cfg : Option String) (present : Bool)
    (a : AuthResult) (err : HttpError)
    (h : process_assertion cfg present a = .error err) :
    err.status = 400 ∨ err.status = 401 := by
  unfold process_assertion at h
  repeat' split at h
  all_goals (cases h <;> simp)

theorem samlAcs_error_status (present : Bool) (a : AuthResult) (err : HttpErrorS)
    (h : saml_acs present a = .error err) :
    err.status = 400 ∨ err.status = 401 := by
  unfold saml_acs at h
  repeat' split at h
  all_goals (cases h <;> simp)

theorem processAssertion_errors_fail (cfg : Option String) (a : AuthResult)
    (h : a.errors ≠ []) :
    process_assertion cfg true a =
      .error ⟨400, ⟨"SAML processing failed", none, some a.errors⟩⟩ := by
  unfold process_assertion
  simp [h]

theorem samlAcs_errors_fail (a : AuthResult) (h : a.errors ≠ []) :
    saml_acs true a =
      .error ⟨400, "SAML processing failed: " ++ pyStrListRepr a.errors⟩ := by
  unfold saml_acs
  simp [h]

theorem lookupId_filter_ne (id : String) (c : ReplayCache) :
    lookupId id (c.filter (fun e => e.1 ≠ id)) = none := by
  induction c with
  | nil => rfl
  | cons hd tl ih =>
      obtain ⟨i, x⟩ := hd
      rw [List.filter_cons]
      by_cases h : i = id
      · rw [if_neg (by simp [h])]
        exact ih
      · rw [if_pos (by simp [h])]
        simp only [lookupId]
        rw [if_neg h]
        exact ih

theorem consume_true_iff (id : String) (now : Int) (c : ReplayCache) :
    (consume id now c).1 = true ↔ ∃ exp, lookupId id c = some exp ∧ now ≤ exp := by
  unfold consume
  cases hl : lookupId id c with
  | none => simp
  | some exp =>
      by_cases hle : now ≤ exp
      · simp [hle]
      · simp [hle]

theorem consume_true_removes (id : String) (now : Int) (c : ReplayCache)
    (h : (consume id now c).1 = true) :
    (consume id now c).2 = c.filter (fun e => e.1 ≠ id) := by
  unfold consume at h ⊢
  cases hl : lookupId id c with
  | none => rw [hl] at h; simp at h
  | some exp =>
      rw [hl] at h
      by_cases hle : now ≤ exp
      · simp [hle]
      · simp [hle] at h

theorem consume_not_again (id : String) (now now2 : Int) (c c' : ReplayCache)
    (h : consume id now c = (true, c')) : (consume id now2 c').1 = false := by
  have h1 : (consume id now c).1 = true := by rw [h]
  have h2 : c' = c.filter (fun e => e.1 ≠ id) := by
    rw [← consume_true_removes id now c h1, h]
  unfold consume
  rw [h2, lookupId_filter_ne]

theorem validate_ok_shape (env : SamlResponseEnvelope) (idp sp : String)
    (p : ReplayCache) (now : Int) (v : VerifiedIdentity) (p' : ReplayCache)
    (h : validate env idp sp p now = .ok (v, p')) :
    v = ⟨env.assertion.nameID, env.assertion.attributes, env.assertion.issuer,
         env.assertion.authnInstant⟩ ∧ env.assertion.nameID ≠ "" := by
  unfold validate at h
  repeat' split at h
  all_goals (try cases h)
  all_goals simp_all

theorem validate_replay_second (env : SamlResponseEnvelope) (idp sp : String)
    (p : ReplayCache) (now : Int) (v : VerifiedIdentity) (p' : ReplayCache)
    (rid : String)
    (hrid : env.assertion.inResponseTo = some rid)
    (h : validate env idp sp p now = .ok (v, p')) :
    validate env idp sp p' now = .error .replayDetected := by
  unfold validate at h ⊢
  by_cases h1 : env.statusSuccess = false
  · rw [if_pos h1] at h; cases h
  rw [if_neg h1] at h ⊢
  by_cases h2 : env.issuer ≠ idp
  · rw [if_pos h2] at h; cases h
  rw [if_neg h2] at h ⊢
  by_cases h3 : env.assertion.signatureValid = false
  · rw [if_pos h3] at h; cases h
  rw [if_neg h3] at h ⊢
  by_cases h4 : now + clockSkew < env.assertion.notBefore
  · rw [if_pos h4] at h; cases h
  rw [if_neg h4] at h ⊢
  by_cases h5 : env.assertion.notOnOrAfter < now - clockSkew
  · rw [if_pos h5] at h; cases h
  rw [if_neg h5] at h ⊢
  by_cases h6 : sp ∉ env.assertion.audiences
  · rw [if_pos h6] at h; cases h
  rw [if_neg h6] at h ⊢
  split at h
  next rid2 heq =>
    rw [hrid] at heq
    injection heq with heq2
    subst heq2
    cases hc : consume rid now p with
    | mk b pc =>
      rw [hc] at h
      cases b with
      | false => cases h
      | true =>
        dsimp only at h
        by_cases h7 : env.assertion.nameID = ""
        · rw [if_pos h7] at h; cases h
        · rw [if_neg h7] at h
          injection h with h8
          injection h8 with hv hp
          subst hp
          have hfalse : (consume rid now pc).1 = false :=
            consume_not_again rid now now p pc hc
          cases hcc : consume rid now pc with
          | mk b2 pc2 =>
            have hb2 : b2 = false := by rw [hcc] at hfalse; simpa using hfalse
            subst hb2
            rfl
  next heq =>
    rw [hrid] at heq
    cases heq

deriving instance DecidableEq for Except

/-! ## Claim theorems -/

/-- C1: a SAML response that passes all validation checks yields a
`VerifiedIdentity` whose NameID equals the assertion's NameID exactly, and
`app.py`'s ACS handler returns that same NameID (email) unchanged in its
success JSON together with the token pair. -/
theorem validation_preserves_nameid :
    (∀ env idp sp p now v p',
        validate env idp sp p now = .ok (v, p') → v.nameID = env.assertion.nameID) ∧
    (∀ a e, a.errors = [] → a.authenticated = true → a.nameid = some e → e ≠ "" →
        saml_acs true a =
          .ok ⟨"SAML authentication successful", e, fakeAccessToken e,
               fakeRefreshToken e, "bearer"⟩) := by
  constructor
  · intro env idp sp p now v p' h
    rw [(validate_ok_shape env idp sp p now v p' h).1]
  · intro a e h1 h2 h3 h4
    rw [samlAcs_eq_ok_iff]
    refine ⟨rfl, h1, h2, ?_⟩
    simp [h3, acsEmail, h4]

/-- C1 witness: the spec §8 scenario (signed assertion for
`alice@example.com` inside its window, matching audience and issuer). -/
theorem validation_preserves_nameid_witness :
    validate sampleEnvelope "https://idp.example.com" "https://sp.example.com"
        [("req-1", 1300)] 1000 = .ok (sampleIdentity, []) ∧
    sampleIdentity.nameID = sampleEnvelope.assertion.nameID ∧
    saml_acs true ⟨[], true, some "alice@example.com"⟩ =
      .ok ⟨"SAML authentication successful", "alice@example.com",
           fakeAccessToken "alice@example.com", fakeRefreshToken "alice@example.com",
           "bearer"⟩ := by
  refine ⟨by decide, ?_, ?_⟩
  · exact validation_preserves_nameid.1 sampleEnvelope "https://idp.example.com"
      "https://sp.example.com" [("req-1", 1300)] 1000 sampleIdentity [] (by decide)
  · exact validation_preserves_nameid.2 ⟨[], true, some "alice@example.com"⟩
      "alice@example.com" rfl rfl rfl (by decide)

/-- C2 counterexample: with no NameID (and the library satisfied), `app.py`'s
ACS handler proceeds to token issuance with the substitute subject
`"unknown"` instead of failing. -/
theorem missing_nameid_cex :
    saml_acs true ⟨[], true, none⟩ =
      .ok ⟨"SAML authentication successful", "unknown", fakeAccessToken "unknown",
           fakeRefreshToken "unknown", "bearer"⟩ := by
  rfl

/-- C2 (amended): on a missing or empty NameID, `process_assertion` fails
with HTTP 400 and issues no tokens, and the spec-modelled `validate` never
returns an identity; but `app.py`'s `saml_acs` substitutes `"unknown"` as
the email and issues tokens anyway. -/
theorem missing_nameid_amended (cfg : Option String) (a : AuthResult)
    (h1 : a.errors = []) (h2 : a.authenticated = true)
    (h3 : a.nameid = none ∨ a.nameid = some "") :
    process_assertion cfg true a =
      .error ⟨400, ⟨"Invalid SAML response",
                    some "NameID (email) not found in the SAML assertion.", none⟩⟩ ∧
    saml_acs true a =
      .ok ⟨"SAML authentication successful", "unknown", fakeAccessToken "unknown",
           fakeRefreshToken "unknown", "bearer"⟩ ∧
    (∀ env idp sp p now v p', env.assertion.nameID = "" →
        validate env idp sp p now ≠ .ok (v, p')) := by
  obtain ⟨errors, auth, nameid⟩ := a
  dsimp only at h1 h2 h3
  subst h1
  subst h2
  refine ⟨?_, ?_, ?_⟩
  · rcases h3 with h3 | h3 <;> subst h3 <;> rfl
  · rcases h3 with h3 | h3 <;> subst h3 <;> rfl
  · intro env idp sp p now v p' hn h
    exact (validate_ok_shape env idp sp p now v p' h).2 hn

/-- C2 witness: a response with no NameID at all. -/
theorem missing_nameid_amended_witness :
    process_assertion (some "alice@example.com") true ⟨[], true, none⟩ =
      .error ⟨400, ⟨"Invalid SAML response",
                    some "NameID (email) not found in the SAML assertion.", none⟩⟩ ∧
    saml_acs true ⟨[], true, none⟩ =
      .ok ⟨"SAML authentication successful", "unknown", fakeAccessToken "unknown",
           fakeRefreshToken "unknown", "bearer"⟩ := by
  have h := missing_nameid_amended (some "alice@example.com") ⟨[], true, none⟩
    rfl rfl (Or.inl rfl)
  exact ⟨h.1, h.2.1⟩

/-- C3: when the user-directory lookup returns none, `process_assertion`
raises HTTP 401 ("Unauthorized user") and token issuance is never reached;
tokens are minted only for identities whose lookup returns a principal. -/
theorem unknown_principal_terminal (cfg : Option String) (a : AuthResult)
    (e : String)
    (h1 : a.errors = []) (h2 : a.authenticated = true) (h3 : a.nameid = some e)
    (h4 : e ≠ "") (h5 : get_auth_user cfg e = none) :
    process_assertion cfg true a =
      .error ⟨401, ⟨"Unauthorized user",
                    some "User account not found in the application.", none⟩⟩ ∧
    (∀ cfg2 present2 b r, process_assertion cfg2 present2 b = .ok r →
        ∃ e2 u, b.nameid = some e2 ∧ get_auth_user cfg2 e2 = some u ∧
          r = ⟨(create_tokens u.id u.email "saml").access_token,
               (create_tokens u.id u.email "saml").refresh_token, "bearer"⟩) := by
  constructor
  · obtain ⟨errors, auth, nameid⟩ := a
    dsimp only at h1 h2 h3
    subst h1
    subst h2
    subst h3
    simp [process_assertion, h4, h5]
  · intro cfg2 present2 b r h
    obtain ⟨-, -, -, e2, u, he, -, hu, hr⟩ :=
      (processAssertion_eq_ok_iff cfg2 present2 b r).1 h
    exact ⟨e2, u, he, hu, hr⟩

/-- C3 witness: `alice@example.com` is authenticated but is not the
configured test user, so the lookup misses and the caller gets 401. -/
theorem unknown_principal_terminal_witness :
    get_auth_user (some "tester@example.com") "alice@example.com" = none ∧
    process_assertion (some "tester@example.com") true
        ⟨[], true, some "alice@example.com"⟩ =
      .error ⟨401, ⟨"Unauthorized user",
                    some "User account not found in the application.", none⟩⟩ := by
  have h := unknown_principal_terminal (some "tester@example.com")
    ⟨[], true, some "alice@example.com"⟩ "alice@example.com" rfl rfl rfl
    (by decide) (by decide)
  exact ⟨by decide, h.1⟩

/-- C4: the claim requires every issued session token to carry the principal
ID, an issued-at time and an expiry, integrity-protected; the code's
`create_tokens` output base64-decodes to exactly
`user_id:email:auth_type:access:` (resp. `:refresh`) — fully determined by
its three arguments, with no issued-at, no expiry and no signature. -/
theorem create_tokens_contents :
    b64decodeStr ((create_tokens testUserId "alice@example.com" "saml").access_token) =
      some (strBytes (testUserId ++ ":alice@example.com:saml:access:")) ∧
    b64decodeStr ((create_tokens testUserId "alice@example.com" "saml").refresh_token) =
      some (strBytes (testUserId ++ ":alice@example.com:saml:refresh")) ∧
    (∀ u e t, create_tokens u e t =
        ⟨b64encodeStr (strBytes (u ++ ":" ++ e ++ ":" ++ t ++ ":access:")),
         b64encodeStr (strBytes (u ++ ":" ++ e ++ ":" ++ t ++ ":refresh"))⟩) := by
  refine ⟨by decide, by decide, fun u e t => rfl⟩

/-- C5: replay protection (spec-modelled, §4.5/§4.3 step 6): `consume`
returns true exactly when the ID is found and unexpired, a true `consume`
removes the ID, a consumed ID cannot be consumed again, and re-submitting a
SAMLResponse whose `InResponseTo` ID was already consumed fails with
`ReplayDetected` even at the same instant (inside the validity window). -/
theorem replay_at_most_once :
    (∀ id now c, (consume id now c).1 = true ↔
        ∃ exp, lookupId id c = some exp ∧ now ≤ exp) ∧
    (∀ id now c, (consume id now c).1 = true →
        lookupId id (consume id now c).2 = none) ∧
    (∀ id now now2 c c', consume id now c = (true, c') →
        (consume id now2 c').1 = false) ∧
    (∀ env idp sp p now v p' rid, env.assertion.inResponseTo = some rid →
        validate env idp sp p now = .ok (v, p') →
        validate env idp sp p' now = .error .replayDetected) := by
  refine ⟨consume_true_iff, ?_, ?_, ?_⟩
  · intro id now c h
    rw [consume_true_removes id now c h]
    exact lookupId_filter_ne id c
  · intro id now now2 c c' h
    exact consume_not_again id now now2 c c' h
  · intro env idp sp p now v p' rid hrid h
    exact validate_replay_second env idp sp p now v p' rid hrid h

/-- C5 witness: a pending ID is consumed once and a second submission of the
same response is rejected as a replay while still inside the window. -/
theorem replay_at_most_once_witness :
    (consume "req-1" 1000 [("req-1", 1300)]).1 = true ∧
    lookupId "req-1" (consume "req-1" 1000 [("req-1", 1300)]).2 = none ∧
    (consume "req-1" 1000 ((consume "req-1" 1000 [("req-1", 1300)]).2)).1 = false ∧
    validate sampleEnvelope "https://idp.example.com" "https://sp.example.com"
        [] 1000 = .error .replayDetected := by
  refine ⟨?_, ?_, ?_, ?_⟩
  · exact (replay_at_most_once.1 "req-1" 1000 [("req-1", 1300)]).2
      ⟨1300, by decide, by decide⟩
  · exact replay_at_most_once.2.1 "req-1" 1000 [("req-1", 1300)] (by decide)
  · exact replay_at_most_once.2.2.1 "req-1" 1000 1000 [("req-1", 1300)]
      ((consume "req-1" 1000 [("req-1", 1300)]).2) (by decide)
  · exact replay_at_most_once.2.2.2 sampleEnvelope "https://idp.example.com"
      "https://sp.example.com" [("req-1", 1300)] 1000 sampleIdentity [] "req-1"
      rfl (by decide)

/-- C6: token issuance is reached exactly when every check passes; on any
failure both handlers raise an `HTTPException` (no token issuance), and a
non-empty library error list is never downgraded to success. -/
theorem tokens_only_after_validation (cfg : Option String) (present : Bool)
    (a : AuthResult) :
    ((∃ r, process_assertion cfg present a = .ok r) ↔
      present = true ∧ a.errors = [] ∧ a.authenticated = true ∧
      ∃ e u, a.nameid = some e ∧ e ≠ "" ∧ get_auth_user cfg e = some u) ∧
    ((∃ r, saml_acs present a = .ok r) ↔
      present = true ∧ a.errors = [] ∧ a.authenticated = true) ∧
    (a.errors ≠ [] → present = true →
      process_assertion cfg present a =
        .error ⟨400, ⟨"SAML processing failed", none, some a.errors⟩⟩ ∧
      saml_acs present a =
        .error ⟨400, "SAML processing failed: " ++ pyStrListRepr a.errors⟩) := by
  refine ⟨?_, ?_, ?_⟩
  · constructor
    · rintro ⟨r, hr⟩
      obtain ⟨hp, he, ha, e, u, g1, g2, g3, -⟩ :=
        (processAssertion_eq_ok_iff cfg present a r).1 hr
      exact ⟨hp, he, ha, e, u, g1, g2, g3⟩
    · rintro ⟨hp, he, ha, e, u, g1, g2, g3⟩
      exact ⟨_, (processAssertion_eq_ok_iff cfg present a _).2
        ⟨hp, he, ha, e, u, g1, g2, g3, rfl⟩⟩
  · constructor
    · rintro ⟨r, hr⟩
      obtain ⟨hp, he, ha, -⟩ := (samlAcs_eq_ok_iff present a r).1 hr
      exact ⟨hp, he, ha⟩
    · rintro ⟨hp, he, ha⟩
      exact ⟨_, (samlAcs_eq_ok_iff present a _).2 ⟨hp, he, ha, rfl⟩⟩
  · intro herr hp
    subst hp
    exact ⟨processAssertion_errors_fail cfg a herr, samlAcs_errors_fail a herr⟩

/-- C6 witness: with a non-empty error list, both handlers fail with 400 and
no tokens, even though the response is otherwise authenticated. -/
theorem tokens_only_after_validation_witness :
    process_assertion (some "alice@example.com") true
        ⟨["invalid_response"], true, some "alice@example.com"⟩ =
      .error ⟨400, ⟨"SAML processing failed", none, some ["invalid_response"]⟩⟩ ∧
    saml_acs true ⟨["invalid_response"], true, some "alice@example.com"⟩ =
      .error ⟨400, "SAML processing failed: " ++ pyStrListRepr ["invalid_response"]⟩ :=
  (tokens_only_after_validation (some "alice@example.com") true
    ⟨["invalid_response"], true, some "alice@example.com"⟩).2.2 (by decide) rfl

/-- C7 counterexample: the library error list — internal failure detail —
appears verbatim in the client-visible `HTTPException` detail. -/
theorem error_detail_leaked_cex :
    process_assertion (some "tester@example.com") true
        ⟨["Signature validation failed. SAML Response rejected"], true,
         some "alice@example.com"⟩ =
      .error ⟨400, ⟨"SAML processing failed", none,
                    some ["Signature validation failed. SAML Response rejected"]⟩⟩ := by
  rfl

/-- C7 (amended): every failing ACS request surfaces as HTTP 400 or 401, but
the library error list is included in the client-visible detail (the
`details` field in `process_assertion`; interpolated into the detail string
in `app.py`) rather than being logged server-side only. -/
theorem errors_surface_as_4xx :
    (∀ cfg present a err, process_assertion cfg present a = .error err →
        err.status = 400 ∨ err.status = 401) ∧
    (∀ present a err, saml_acs present a = .error err →
        err.status = 400 ∨ err.status = 401) ∧
    (∀ cfg a, a.errors ≠ [] →
        process_assertion cfg true a =
          .error ⟨400, ⟨"SAML processing failed", none, some a.errors⟩⟩) ∧
    (∀ a, a.errors ≠ [] →
        saml_acs true a =
          .error ⟨400, "SAML processing failed: " ++ pyStrListRepr a.errors⟩) :=
  ⟨processAssertion_error_status, samlAcs_error_status,
   processAssertion_errors_fail, samlAcs_errors_fail⟩

/-- C7 witness: a concrete library failure propagates as 400 with the error
list in the client-visible detail of both handlers. -/
theorem errors_surface_as_4xx_witness :
    process_assertion (some "tester@example.com") true ⟨["e1"], true, none⟩ =
      .error ⟨400, ⟨"SAML processing failed", none, some ["e1"]⟩⟩ ∧
    saml_acs true ⟨["e1"], true, none⟩ =
      .error ⟨400, "SAML processing failed: " ++ pyStrListRepr ["e1"]⟩ ∧
    ((400 : Nat) = 400 ∨ (400 : Nat) = 401) := by
  refine ⟨?_, ?_, ?_⟩
  · exact errors_surface_as_4xx.2.2.1 (some "tester@example.com")
      ⟨["e1"], true, none⟩ (by decide)
  · exact errors_surface_as_4xx.2.2.2 ⟨["e1"], true, none⟩ (by decide)
  · exact errors_surface_as_4xx.1 (some "tester@example.com") true
      ⟨["e1"], true, none⟩ ⟨400, ⟨"SAML processing failed", none, some ["e1"]⟩⟩
      (by decide)

/-- C8: `create_tokens` is deterministic — two calls with identical
arguments yield identical token strings; the decoded token content is the
colon-joined function of the three arguments alone, embedding no timestamp,
randomness or per-call state. -/
theorem create_tokens_deterministic (u1 e1 t1 u2 e2 t2 : String)
    (hl : latin1 (u1 ++ ":" ++ e1 ++ ":" ++ t1))
    (hu : u1 = u2) (he : e1 = e2) (ht : t1 = t2) :
    create_tokens u1 e1 t1 = create_tokens u2 e2 t2 ∧
    b64decodeStr (create_tokens u1 e1 t1).access_token =
      some (strBytes (u1 ++ ":" ++ e1 ++ ":" ++ t1 ++ ":access:")) ∧
    b64decodeStr (create_tokens u1 e1 t1).refresh_token =
      some (strBytes (u1 ++ ":" ++ e1 ++ ":" ++ t1 ++ ":refresh")) := by
  subst hu
  subst he
  subst ht
  refine ⟨rfl, ?_, ?_⟩
  · exact b64decodeStr_b64encodeStr _ (strBytes_lt (latin1_append hl (by decide)))
  · exact b64decodeStr_b64encodeStr _ (strBytes_lt (latin1_append hl (by decide)))

/-- C8 witness: two identical calls on concrete arguments. -/
theorem create_tokens_deterministic_witness :
    create_tokens "u1" "alice@example.com" "saml" =
      create_tokens "u1" "alice@example.com" "saml" ∧
    b64decodeStr (create_tokens "u1" "alice@example.com" "saml").access_token =
      some (strBytes ("u1" ++ ":" ++ "alice@example.com" ++ ":" ++ "saml" ++ ":access:")) ∧
    b64decodeStr (create_tokens "u1" "alice@example.com" "saml").refresh_token =
      some (strBytes ("u1" ++ ":" ++ "alice@example.com" ++ ":" ++ "saml" ++ ":refresh")) :=
  create_tokens_deterministic "u1" "alice@example.com" "saml" "u1" "alice@example.com"
    "saml" (by decide) rfl rfl rfl

/-- C9: `get_auth_user` is total and returns the principal record
`{email, fixed UUID}` precisely when the input equals the configured
`TEST_USER_EMAIL` (case-sensitive string equality); otherwise `None`. -/
theorem get_auth_user_characterization (cfg : Option String) (email : String) :
    (get_auth_user cfg email = some ⟨email, testUserId⟩ ↔ cfg = some email) ∧
    (get_auth_user cfg email = none ↔ cfg ≠ some email) ∧
    (∀ u, get_auth_user cfg email = some u → u = ⟨email, testUserId⟩) := by
  unfold get_auth_user
  by_cases h : some email = cfg
  · subst h
    simp
  · rw [if_neg h]
    refine ⟨?_, ?_, ?_⟩
    · simp [eq_comm, h]
      exact fun hc => h hc.symm
    · simp [eq_comm, h]
      exact fun hc => h hc.symm
    · intro u hu
      cases hu

/-- C10: base64-decoding the tokens minted by `app.py`'s ACS handler
recovers exactly `email:access` and `email:refresh` — the token pair is a
pure, invertible function of the email alone. -/
theorem acs_tokens_roundtrip (e : String) (h : latin1 e) :
    b64decodeStr (fakeAccessToken e) = some (strBytes (e ++ ":access")) ∧
    b64decodeStr (fakeRefreshToken e) = some (strBytes (e ++ ":refresh")) := by
  constructor
  · exact b64decodeStr_b64encodeStr _ (strBytes_lt (latin1_append h (by decide)))
  · exact b64decodeStr_b64encodeStr _ (strBytes_lt (latin1_append h (by decide)))

/-- C10 witness: the concrete tokens for `alice@example.com` decode back to
the expected plaintext. -/
theorem acs_tokens_roundtrip_witness :
    latin1 "alice@example.com" ∧
    b64decodeStr (fakeAccessToken "alice@example.com") =
      some (strBytes ("alice@example.com" ++ ":access")) ∧
    b64decodeStr (fakeRefreshToken "alice@example.com") =
      some (strBytes ("alice@example.com" ++ ":refresh")) :=
  ⟨by decide, (acs_tokens_roundtrip "alice@example.com" (by decide)).1,
   (acs_tokens_roundtrip "alice@example.com" (by decide)).2⟩

/-- C9 witness: the configured test email hits; the empty string misses. -/
theorem get_auth_user_characterization_witness :
    get_auth_user (some "tester@example.com") "tester@example.com" =
      some ⟨"tester@example.com", testUserId⟩ ∧
    get_auth_user (some "tester@example.com") "" = none := by
  constructor
  · exact ((get_auth_user_characterization (some "tester@example.com")
      "tester@example.com").1).2 rfl
  · exact ((get_auth_user_characterization (some "tester@example.com") "").2.1).2
      (by decide)
